import Mathlib

/-!
Verification development for the `opencap-processing` repository
(`extract_results.py`): a shallow embedding of the label normalizer
(`clean_labels`), the subplot-grid sizing rules of the plotting
routines, the per-panel rendering behaviour of
`plot_muscle_activations` and `plot_joint_coordinates`, and the
orchestration function `extract_dynamics`.

Modelling conventions:
* Python strings are Lean `String`s; `needle in haystack` is the
  contiguous-sublist test `sublistAt` on the underlying `List Char`;
  `s.split('_')` is `splitOnChar '_'` (keeps empty fields, returns
  `[[]]` on the empty string, exactly like Python).
* A Python expression that can raise (`''[-1]` raises `IndexError`)
  is embedded into `Option`; `none` is the raised exception.
* NumPy float data is embedded as `ℚ` (or `ℝ` where the code
  multiplies by `180/π`); a NaN entry is `Option.none` in
  `List (Option ℚ)` rows, so `np.isnan(row).all()` is
  `row.all (·.isNone)`.
* Matplotlib semantics used by the code: the module chooses the
  non-interactive `Agg` backend at import time when the `DISPLAY`
  environment variable is empty/unset, and under `Agg` a call to
  `plt.show()` displays nothing.  A figure is therefore *shown* by a
  bare `plt.show()` iff `DISPLAY` is non-empty.
-/

/-- Contiguous-sublist test on character lists; models Python's
`needle in haystack` substring operator. -/
def sublistAt (needle : List Char) : List Char → Bool
  | [] => needle.isEmpty
  | c :: rest => needle.isPrefixOf (c :: rest) || sublistAt needle rest

/-- Models Python's `s.split(sep)` with an explicit one-character
separator: splits at every occurrence, keeps empty fields, and returns
one (empty) field for the empty string. -/
def splitOnChar (sep : Char) : List Char → List (List Char)
  | [] => [[]]
  | c :: rest =>
    if c = sep then
      [] :: splitOnChar sep rest
    else
      match splitOnChar sep rest with
      | [] => [[c]]
      | tok :: toks => (c :: tok) :: toks

/-- The token after the last `'_'` of a label: Python's
`label.split('_')[-1]` (always defined, since `split` never returns an
empty list). -/
def lastToken (label : String) : List Char :=
  (splitOnChar '_' label.data).getLastD []

/-- The side marker of `clean_labels`: `'left' in label` gives `"L"`,
else `'right' in label` gives `"R"`, else the empty string. -/
def sideOf (label : String) : String :=
  if sublistAt "left".data label.data then "L"
  else if sublistAt "right".data label.data then "R"
  else ""

/-- Models Python's `label.endswith(suffix)`. -/
def endsWith (label : String) (suf : String) : Bool :=
  suf.data.isSuffixOf label.data

/-- The COP-axis rule of `clean_labels`: suffix `px`/`py`/`pz` gives
`x`/`y`/`z`, otherwise the token after the last `'_'`. -/
def copAxis (label : String) : String :=
  if endsWith label "px" then "x"
  else if endsWith label "py" then "y"
  else if endsWith label "pz" then "z"
  else ⟨lastToken label⟩

/-- The GRF-axis rule of `clean_labels`: suffix `vx`/`vy`/`vz` gives
`x`/`y`/`z`, otherwise the token after the last `'_'`. -/
def grfAxis (label : String) : String :=
  if endsWith label "vx" then "x"
  else if endsWith label "vy" then "y"
  else if endsWith label "vz" then "z"
  else ⟨lastToken label⟩

/-- Per-label body of `clean_labels` (extract_results.py lines
526-591).  The `GRM` branch evaluates `label.split('_')[-1][-1]`,
which raises `IndexError` when the last token is empty; that raise is
the `none` case. -/
def cleanLabel (data_type : String) (label : String) : Option String :=
  if data_type = "COP" then
    if sublistAt "ground_force".data label.data then
      some ("CoP " ++ sideOf label ++ "_" ++ copAxis label)
    else
      some label
  else if data_type = "GRF" then
    if sublistAt "ground_force".data label.data then
      some ("GRF " ++ sideOf label ++ "_" ++ grfAxis label)
    else
      some label
  else if data_type = "GRM" then
    if sublistAt "ground_force".data label.data then
      match (lastToken label).getLast? with
      | some c => some ("GRM " ++ sideOf label ++ "_" ++ ⟨[c]⟩)
      | none => none
    else
      some label
  else
    some label

/-- Model of `clean_labels(labels, data_type)` (extract_results.py lines
509-593): the loop over `labels`; an `IndexError` raised for one label
aborts the whole call (`none`). -/
def clean_labels (labels : List String) (data_type : String) :
    Option (List String) :=
  match labels with
  | [] => some []
  | l :: ls =>
    match cleanLabel data_type l, clean_labels ls data_type with
    | some c, some rest => some (c :: rest)
    | _, _ => none

/-! ## Subplot-grid sizing -/

/-- Models `int(np.ceil(np.sqrt(n)))` on a natural channel count. -/
def ceilSqrt (n : ℕ) : ℕ :=
  if Nat.sqrt n * Nat.sqrt n = n then Nat.sqrt n else Nat.sqrt n + 1

/-- Models `int(np.ceil(a / b))` on naturals with `b > 0`. -/
def ceilDivNat (a b : ℕ) : ℕ := (a + b - 1) / b

/-- Grid shape `(rows, cols)` of the generic plotting routines
(`plot_muscle_activations`, `plot_joint_coordinates`,
`plot_joint_speeds`, `plot_joint_torques`, `plot_joint_powers`):
`n_cols = ceil(sqrt n)`, `n_rows = ceil(n / n_cols)`
(extract_results.py lines 97-99 and analogues). -/
def gridGeneric (n : ℕ) : ℕ × ℕ :=
  (ceilDivNat n (ceilSqrt n), ceilSqrt n)

/-- Grid shape of `plot_grfs`: always `plt.subplots(2, 3, ...)`
(line 40). -/
def gridGRF : ℕ × ℕ := (2, 3)

/-- Grid shape of the inline GRM plot in `extract_dynamics`: always
`plt.subplots(2, 3, ...)` (line 734). -/
def gridGRM : ℕ × ℕ := (2, 3)

/-- Grid shape of `plot_cops` (lines 462-471): `2×3` for exactly 6
components, otherwise `n_cols = min(3, n)`, `n_rows = ceil(n / n_cols)`. -/
def gridCOP (n : ℕ) : ℕ × ℕ :=
  if n = 6 then (2, 3)
  else (ceilDivNat n (min 3 n), min 3 n)

/-- Number of unused panels the generic routines delete from the grid
(`fig.delaxes(ax)` for every flat index `i ≥ n`). -/
def removedGeneric (n : ℕ) : ℕ :=
  (gridGeneric n).1 * (gridGeneric n).2 - n

/-! ## Per-panel rendering models -/

/-- One rendered panel of `plot_muscle_activations`: the optionally
drawn EMG reference curve (a NaN entry of the row is `none`), the
simulated curve, the fixed y-limits, and the title. -/
structure MusclePanel where
  emgCurve : Option (List (Option ℚ))
  primary : List ℚ
  yLim : ℚ × ℚ
  title : String
  deriving Repr, DecidableEq

instance : Inhabited MusclePanel := ⟨⟨none, [], (0, 0), ""⟩⟩

/-- Per-channel rendering of `plot_muscle_activations`
(extract_results.py lines 110-124): for channel `i`, the EMG row is
drawn only when EMG data was passed and the row is not entirely NaN
(`np.isnan(emg_data[i, :]).all()`); the simulated curve is
`activations[i, :-1]`; `ax.set_ylim(0, 1)` fixes the y-axis. -/
def plot_muscle_activations (activations : List (List ℚ))
    (muscle_names : List String)
    (emg_data : Option (List (List (Option ℚ)))) : List MusclePanel :=
  (List.range muscle_names.length).map fun i =>
    { emgCurve :=
        match emg_data with
        | some e =>
          if (e.getD i []).all (·.isNone) then none else some (e.getD i [])
        | none => none
      primary := (activations.getD i []).dropLast
      yLim := (0, 1)
      title := muscle_names.getD i "" }

/-- One rendered panel of `plot_joint_coordinates`: the scaled
simulated curve, the optionally drawn scaled tracked curve, the unit
string, and the title.  The value type `K` stands for the float values
of the arrays; theorems instantiate `K := ℝ` with `π := Real.pi`. -/
structure CoordPanel (K : Type) where
  primary : List K
  tracked : Option (List K)
  unit : String
  title : String

instance {K : Type} : Inhabited (CoordPanel K) := ⟨⟨[], none, "", ""⟩⟩

/-- Per-channel rendering of `plot_joint_coordinates`
(extract_results.py lines 195-217): a channel whose name is in the
(truthy) `rotational_coords` list is scaled by `180/π` with unit
`(deg)`, otherwise unscaled with unit `(m)`; both the tracked and the
simulated (`coordinates[i, :-1]`) curves are multiplied by the scale.
`piv` is the value of `np.pi`. -/
def plot_joint_coordinates {K : Type} [Field K] (piv : K)
    (coordinates : List (List K))
    (coord_names : List String)
    (tracked_coords : Option (List (List K)))
    (rotational_coords : List String) : List (CoordPanel K) :=
  (List.range coord_names.length).map fun i =>
    let scale : K :=
      if rotational_coords ≠ [] ∧ coord_names.getD i "" ∈ rotational_coords
      then 180 / piv else 1
    { primary := ((coordinates.getD i []).dropLast).map (· * scale)
      tracked := tracked_coords.map fun t => (t.getD i []).map (· * scale)
      unit :=
        if rotational_coords ≠ [] ∧ coord_names.getD i "" ∈ rotational_coords
        then "(deg)" else "(m)"
      title := coord_names.getD i "" }

/-- Per-channel rendering of `plot_joint_speeds` (extract_results.py
lines 247-311, scale/unit selection lines 264-271): identical in
structure to `plot_joint_coordinates` — a channel named in the
(truthy) `rotational_coords` list is scaled by `180/π`, with the
angular unit `(deg/s)` instead of `(deg)`, otherwise unscaled with
`(m/s)`; both the tracked and the simulated (`speeds[i, :-1]`) curves
are multiplied by the scale. -/
def plot_joint_speeds {K : Type} [Field K] (piv : K)
    (speeds : List (List K))
    (coord_names : List String)
    (tracked_speeds : Option (List (List K)))
    (rotational_coords : List String) : List (CoordPanel K) :=
  (List.range coord_names.length).map fun i =>
    let scale : K :=
      if rotational_coords ≠ [] ∧ coord_names.getD i "" ∈ rotational_coords
      then 180 / piv else 1
    { primary := ((speeds.getD i []).dropLast).map (· * scale)
      tracked := tracked_speeds.map fun t => (t.getD i []).map (· * scale)
      unit :=
        if rotational_coords ≠ [] ∧ coord_names.getD i "" ∈ rotational_coords
        then "(deg/s)" else "(m/s)"
      title := coord_names.getD i "" }

/-! ## The results store and `extract_dynamics` -/

/-- A 2-D numeric array (rows = channels, columns = time samples). -/
abbrev Mat := List (List ℚ)

/-- The first keyed entry of the loaded results store
(`data[list(data.keys())[0]]`): a dictionary whose relevant keys are
modelled as optional fields (`none` = key absent).  `time` is the
first row of `results['time']`. -/
structure ResultsStore where
  time : List ℚ
  GRF : Option Mat := none
  GRF_labels : Option (List String) := none
  GRF_experimental : Option Mat := none
  GRM : Option Mat := none
  GRM_labels : Option (List String) := none
  COP : Option Mat := none
  COP_labels : Option (List String) := none
  muscle_activations : Option Mat := none
  muscles : Option (List String) := none
  muscle_activations_emg : Option (List (List (Option ℚ))) := none
  torques : Option Mat := none
  coordinates : Option (List String) := none
  coordinate_values : Option Mat := none
  coordinate_values_toTrack : Option Mat := none
  coordinate_speeds : Option Mat := none
  coordinate_speeds_toTrack : Option Mat := none
  powers : Option Mat := none
  coordinates_power : Option (List String) := none
  KAM : Option Mat := none
  KAM_labels : Option (List String) := none
  MCF : Option Mat := none
  rotationalCoordinates : Option (List String) := none

/-- The observable outcome of one `extract_dynamics` call: the printed
presence report (category line, ✓ = `true`), the categories plotted in
order, the categories whose figure was actually displayed, the derived
working time vector, and the panels of the muscle-activation figure
when that category was plotted. -/
structure ExtractOutput where
  report : List (String × Bool)
  plotted : List String
  shown : List String
  time : List ℚ
  musclePanels : Option (List MusclePanel)

/-- The show attempt made at the end of category `c`'s plot call:
`plot_grfs` calls `plt.show()` only when `DISPLAY` is non-empty *and*
`display_plot` (line 76); every other routine ends with a bare
`plt.show()`, which does something exactly when `DISPLAY` is non-empty
(under the non-interactive `Agg` backend chosen at import time,
lines 5-7, `plt.show()` displays nothing). -/
def showSucceeds (display : String) (display_plot : Bool)
    (c : String) : Bool :=
  if c = "GRF" then decide (display ≠ "") && display_plot
  else decide (display ≠ "")

/-- Which of the plotted categories (in plot order) get their figure
displayed.  Pyplot's `plt.show()` displays *every* open figure, and no
routine in extract_results.py ever closes its figure, so the figure
created by category `c`'s plot call is displayed iff some show attempt
at or after `c`'s call succeeds — in particular a GRF figure left
unshown by `plot_grfs` under `display_plot=False` is still displayed
by the next routine's bare `plt.show()`. -/
def shownOf (display : String) (display_plot : Bool) :
    List String → List String
  | [] => []
  | c :: rest =>
    if (c :: rest).any (showSucceeds display display_plot) then
      c :: shownOf display display_plot rest
    else shownOf display display_plot rest

/-- The categories after GRF plotted inside the line-645 guard of
`extract_dynamics`, in code order; each tests its own two keys. -/
def plottedTail (r : ResultsStore) : List String :=
  (if r.coordinate_values.isSome && r.coordinates.isSome then
    ["coordinates"] else [])
  ++ (if r.coordinate_speeds.isSome && r.coordinates.isSome then
    ["speeds"] else [])
  ++ (if r.torques.isSome && r.coordinates.isSome then
    ["torques"] else [])
  ++ (if r.powers.isSome && r.coordinates_power.isSome then
    ["powers"] else [])
  ++ (if r.KAM.isSome && r.KAM_labels.isSome then
    ["KAM"] else [])
  ++ (if r.muscle_activations.isSome && r.muscles.isSome then
    ["muscle_activations"] else [])
  ++ (if r.COP.isSome && r.COP_labels.isSome then
    ["COP"] else [])
  ++ (if r.GRM.isSome && r.GRM_labels.isSome then
    ["GRM"] else [])

/-- Model of `extract_dynamics(results_path, display_plot, ...)`
(extract_results.py lines 595-757), with the loaded store `r` and the
`DISPLAY` environment variable `display` made explicit.

* `report` models the eight `print` lines 635-642: each ✓/✗ tests only
  the array key (`'GRF' in results`, `'muscle_activations' in
  results`, ...), never the companion labels key.
* `plotted` models which plot calls are made: everything is nested
  inside `if 'GRF' in results and 'GRF_labels' in results:` (line 645),
  and inside that block each category tests its own two keys.
* `shown` models which categories' figures are displayed, via
  `shownOf`: a category's figure is displayed iff some show attempt at
  or after its plot call succeeds (`plt.show()` displays every open
  figure).
* `musclePanels` records the muscle-activation figure contents when
  line 711 runs. -/
def extract_dynamics (r : ResultsStore) (display : String)
    (display_plot : Bool) : ExtractOutput :=
  let time := r.time.dropLast
  let report : List (String × Bool) :=
    [("Ground Reaction Forces", r.GRF.isSome),
     ("Ground Reaction Moments", r.GRM.isSome),
     ("Centers of Pressure", r.COP.isSome),
     ("Muscle Activations", r.muscle_activations.isSome),
     ("Joint Torques", r.torques.isSome),
     ("Joint Kinematics", r.coordinate_values.isSome),
     ("Knee Adduction Moment (KAM)", r.KAM.isSome),
     ("Medial Compartment Force (MCF)", r.MCF.isSome)]
  let plotted : List String :=
    if r.GRF.isSome && r.GRF_labels.isSome then
      "GRF" :: plottedTail r
    else []
  let shown : List String := shownOf display display_plot plotted
  let musclePanels : Option (List MusclePanel) :=
    if r.GRF.isSome && r.GRF_labels.isSome &&
        (r.muscle_activations.isSome && r.muscles.isSome) then
      some (plot_muscle_activations (r.muscle_activations.getD [])
        (r.muscles.getD []) r.muscle_activations_emg)
    else none
  ⟨report, plotted, shown, time, musclePanels⟩

/-! ## Lemmas about the label normalizer -/

/-- A label without the `ground_force` marker passes through every
branch of `cleanLabel` unchanged. -/
lemma cleanLabel_of_no_marker (data_type label : String)
    (h : sublistAt "ground_force".data label.data = false) :
    cleanLabel data_type label = some label := by
  unfold cleanLabel
  split_ifs with h1 h2 h3 h4 h5 h6 <;> simp_all

/-- The `COP` branch of `cleanLabel` never fails. -/
lemma cleanLabel_cop_isSome (label : String) :
    (cleanLabel "COP" label).isSome = true := by
  unfold cleanLabel
  split_ifs <;> simp_all

/-- The `GRF` branch of `cleanLabel` never fails. -/
lemma cleanLabel_grf_isSome (label : String) :
    (cleanLabel "GRF" label).isSome = true := by
  unfold cleanLabel
  split_ifs <;> simp_all

/-- The `GRM` branch of `cleanLabel` succeeds whenever the marker is
absent or the final `'_'`-token is nonempty. -/
lemma cleanLabel_grm_isSome (label : String)
    (h : sublistAt "ground_force".data label.data = true →
      lastToken label ≠ []) :
    (cleanLabel "GRM" label).isSome = true := by
  unfold cleanLabel
  rw [if_neg (by decide), if_neg (by decide), if_pos rfl]
  by_cases hgf : sublistAt "ground_force".data label.data = true
  · rw [if_pos hgf]
    have hne : lastToken label ≠ [] := h hgf
    have hs : (lastToken label).getLast?.isSome := by
      simp [List.getLast?_isSome, hne]
    obtain ⟨c, hc⟩ := Option.isSome_iff_exists.mp hs
    rw [hc]
    rfl
  · rw [if_neg hgf]
    simp

/-- Per-label success lifts to the whole `clean_labels` loop. -/
lemma clean_labels_isSome (labels : List String) (data_type : String)
    (h : ∀ l ∈ labels, (cleanLabel data_type l).isSome = true) :
    (clean_labels labels data_type).isSome = true := by
  induction labels with
  | nil => simp [clean_labels]
  | cons l ls ih =>
    obtain ⟨c, hc⟩ := Option.isSome_iff_exists.mp (h l (by simp))
    obtain ⟨rest, hrest⟩ :=
      Option.isSome_iff_exists.mp (ih fun x hx => h x (by simp [hx]))
    simp [clean_labels, hc, hrest]

/-- Per-label identity lifts to the whole `clean_labels` loop. -/
lemma clean_labels_id (labels : List String) (data_type : String)
    (h : ∀ l ∈ labels, cleanLabel data_type l = some l) :
    clean_labels labels data_type = some labels := by
  induction labels with
  | nil => simp [clean_labels]
  | cons l ls ih =>
    have h1 := h l (by simp)
    have h2 := ih fun x hx => h x (by simp [hx])
    simp [clean_labels, h1, h2]

/-- C1 (amended): `clean_labels` terminates normally and returns a list
of labels, with no side effects, for every input list under the
categories `COP` and `GRF`; under `GRM` it does so provided every
label containing `ground_force` has a nonempty token after its last
underscore — on an empty final token the `GRM` branch raises
`IndexError`. -/
theorem clean_labels_total_amended :
    (∀ labels : List String, (clean_labels labels "COP").isSome = true) ∧
    (∀ labels : List String, (clean_labels labels "GRF").isSome = true) ∧
    (∀ labels : List String,
      (∀ l ∈ labels, sublistAt "ground_force".data l.data = true →
        lastToken l ≠ []) →
      (clean_labels labels "GRM").isSome = true) := by
  refine ⟨fun labels => ?_, fun labels => ?_, fun labels h => ?_⟩
  · exact clean_labels_isSome labels "COP"
      fun l _ => cleanLabel_cop_isSome l
  · exact clean_labels_isSome labels "GRF"
      fun l _ => cleanLabel_grf_isSome l
  · exact clean_labels_isSome labels "GRM"
      fun l hl => cleanLabel_grm_isSome l (h l hl)

/-- Witness for C1 (amended): a concrete `GRM` call satisfying the
nonempty-final-token side condition succeeds. -/
theorem clean_labels_total_amended_witness :
    (clean_labels ["ground_force_left_vx", "knee_angle_r"] "GRM").isSome
      = true :=
  clean_labels_total_amended.2.2 ["ground_force_left_vx", "knee_angle_r"]
    (by decide)

/-- Counterexample to C1 as stated: under `GRM`, the label
`"ground_force_"` contains the marker but has an empty final
`'_'`-token, so `label.split('_')[-1][-1]` raises `IndexError` and
`clean_labels` does not return a list. -/
theorem clean_labels_not_total :
    clean_labels ["ground_force_"] "GRM" = none := by decide

/-- C9: a raw label that does not contain the substring
`ground_force` is mapped to itself by `clean_labels` under each of the
categories `COP`, `GRF`, `GRM`. -/
theorem clean_labels_identity_no_marker :
    ∀ (labels : List String) (data_type : String),
    data_type ∈ ["COP", "GRF", "GRM"] →
    (∀ l ∈ labels, sublistAt "ground_force".data l.data = false) →
    clean_labels labels data_type = some labels := by
  intro labels data_type _ h
  exact clean_labels_id labels data_type
    fun l hl => cleanLabel_of_no_marker data_type l (h l hl)

/-- Witness for C9: concrete marker-free labels pass through. -/
theorem clean_labels_identity_no_marker_witness :
    clean_labels ["knee_angle_r", "pelvis_tx"] "COP" =
      some ["knee_angle_r", "pelvis_tx"] :=
  clean_labels_identity_no_marker ["knee_angle_r", "pelvis_tx"] "COP"
    (by decide) (by decide)

/-- Two suffixes of the same character list with the same length are
equal. -/
lemma suffix_eq_of_length {s t l : List Char}
    (hs : s.isSuffixOf l = true) (ht : t.isSuffixOf l = true)
    (hlen : s.length = t.length) : s = t := by
  have hs' := List.isSuffixOf_iff_suffix.mp hs
  have ht' := List.isSuffixOf_iff_suffix.mp ht
  rcases List.suffix_or_suffix_of_suffix hs' ht' with h | h
  · exact List.IsSuffix.eq_of_length h hlen
  · exact (List.IsSuffix.eq_of_length h hlen.symm).symm

/-- A label cannot end with two distinct equal-length suffixes. -/
lemma endsWith_excl {label s t : String} (h : endsWith label s = true)
    (hne : s.data ≠ t.data) (hlen : s.data.length = t.data.length) :
    endsWith label t = false := by
  by_contra hc
  have ht : endsWith label t = true := by
    simpa using hc
  unfold endsWith at h ht
  exact hne (suffix_eq_of_length h ht hlen)

/-- C4 (amended): every raw label containing `ground_force` is mapped
to `"{Prefix} {side}_{axis}"` — `CoP`/`GRF` unconditionally with the
`px`/`py`/`pz` resp. `vx`/`vy`/`vz` suffix rules, and `GRM` (axis =
last character of the token after the last `'_'`) provided that token
is nonempty (on an empty token the code raises `IndexError` instead of
producing a label); in particular `ground_force_right_vx` under `GRF`
gives `GRF R_x` and `ground_force_left_py` under `COP` gives
`CoP L_y`. -/
theorem clean_labels_marker_format_amended :
    (∀ label : String, sublistAt "ground_force".data label.data = true →
      (∃ axis : String,
        cleanLabel "COP" label =
          some ("CoP " ++ sideOf label ++ "_" ++ axis) ∧
        (endsWith label "px" = true → axis = "x") ∧
        (endsWith label "py" = true → axis = "y") ∧
        (endsWith label "pz" = true → axis = "z")) ∧
      (∃ axis : String,
        cleanLabel "GRF" label =
          some ("GRF " ++ sideOf label ++ "_" ++ axis) ∧
        (endsWith label "vx" = true → axis = "x") ∧
        (endsWith label "vy" = true → axis = "y") ∧
        (endsWith label "vz" = true → axis = "z")) ∧
      (lastToken label ≠ [] →
        ∃ c : Char, (lastToken label).getLast? = some c ∧
          cleanLabel "GRM" label =
            some ("GRM " ++ sideOf label ++ "_" ++ ⟨[c]⟩))) ∧
    clean_labels ["ground_force_right_vx"] "GRF" = some ["GRF R_x"] ∧
    clean_labels ["ground_force_left_py"] "COP" = some ["CoP L_y"] := by
  refine ⟨fun label hgf =>
    ⟨⟨copAxis label, ?_, ?_, ?_, ?_⟩,
     ⟨grfAxis label, ?_, ?_, ?_, ?_⟩, fun hne => ?_⟩,
    by decide, by decide⟩
  · unfold cleanLabel
    rw [if_pos rfl, if_pos hgf]
  · intro h
    simp [copAxis, h]
  · intro h
    have hpx : endsWith label "px" = false :=
      endsWith_excl h (by decide) (by decide)
    simp [copAxis, hpx, h]
  · intro h
    have hpx : endsWith label "px" = false :=
      endsWith_excl h (by decide) (by decide)
    have hpy : endsWith label "py" = false :=
      endsWith_excl h (by decide) (by decide)
    simp [copAxis, hpx, hpy, h]
  · unfold cleanLabel
    rw [if_neg (by decide), if_pos rfl, if_pos hgf]
  · intro h
    simp [grfAxis, h]
  · intro h
    have hvx : endsWith label "vx" = false :=
      endsWith_excl h (by decide) (by decide)
    simp [grfAxis, hvx, h]
  · intro h
    have hvx : endsWith label "vx" = false :=
      endsWith_excl h (by decide) (by decide)
    have hvy : endsWith label "vy" = false :=
      endsWith_excl h (by decide) (by decide)
    simp [grfAxis, hvx, hvy, h]
  · have hs : (lastToken label).getLast?.isSome = true := by
      simp [List.getLast?_isSome, hne]
    obtain ⟨c, hc⟩ := Option.isSome_iff_exists.mp hs
    refine ⟨c, hc, ?_⟩
    unfold cleanLabel
    rw [if_neg (by decide), if_neg (by decide), if_pos rfl, if_pos hgf, hc]

/-- Witness for C4 (amended): the format theorem applied to the
concrete label `ground_force_right_vx` under `GRF`. -/
theorem clean_labels_marker_format_amended_witness :
    sublistAt "ground_force".data "ground_force_right_vx".data = true ∧
    cleanLabel "GRF" "ground_force_right_vx" =
      some ("GRF " ++ sideOf "ground_force_right_vx" ++ "_" ++ "x") := by
  refine ⟨by decide, ?_⟩
  obtain ⟨ax, hax, hvx, -, -⟩ :=
    (clean_labels_marker_format_amended.1 "ground_force_right_vx"
      (by decide)).2.1
  rw [← hvx (by decide)]
  exact hax

/-- Counterexample to C4 as stated: the label `ground_force_left_`
contains the marker, but under `GRM` the token after the last `'_'`
is empty, so no label of the claimed form is produced — the call
raises `IndexError`. -/
theorem clean_labels_marker_no_label :
    clean_labels ["ground_force_left_"] "GRM" = none := by decide

/-! ## Grid-sizing lemmas -/

/-- The value `ceilSqrt n` is the ceiling of the real square root of `n`: it is
the least `c` with `n ≤ c * c`. -/
lemma ceilSqrt_spec (n : ℕ) (hn : 0 < n) :
    n ≤ ceilSqrt n * ceilSqrt n ∧
    (ceilSqrt n - 1) * (ceilSqrt n - 1) < n := by
  unfold ceilSqrt
  by_cases h : Nat.sqrt n * Nat.sqrt n = n
  · rw [if_pos h]
    have h1 : 0 < Nat.sqrt n := Nat.sqrt_pos.mpr hn
    obtain ⟨k, hk⟩ : ∃ k, Nat.sqrt n = k + 1 := ⟨Nat.sqrt n - 1, by omega⟩
    rw [hk] at h ⊢
    have hexp : (k + 1) * (k + 1) = k * k + 2 * k + 1 := by ring
    constructor
    · omega
    · simp only [Nat.add_sub_cancel]
      omega
  · rw [if_neg h]
    have h2 := Nat.lt_succ_sqrt n
    have h3 := Nat.sqrt_le n
    constructor
    · exact h2.le
    · simp only [Nat.add_sub_cancel]
      omega

/-- The value `ceilDivNat n c` is the ceiling of `n / c`: it is the least `r`
with `n ≤ r * c`. -/
lemma ceilDivNat_spec (n c : ℕ) (hn : 0 < n) (hc : 0 < c) :
    n ≤ ceilDivNat n c * c ∧ (ceilDivNat n c - 1) * c < n := by
  unfold ceilDivNat
  have hdm := Nat.div_add_mod (n + c - 1) c
  have hmod : (n + c - 1) % c < c := Nat.mod_lt _ hc
  set q := (n + c - 1) / c with hq
  set m := c * q with hm
  have h1 : q * c = m := by rw [hm, Nat.mul_comm]
  have h2 : (q - 1) * c = m - c := by
    rw [Nat.sub_mul, one_mul, h1]
  rw [h1, h2]
  omega

/-- C5: subplot-grid layout — `plot_grfs` and the inline GRM plot use
a fixed 2×3 grid (so 6 channels are laid out 2×3), `plot_cops` uses
2×3 exactly for 6 channels and otherwise `cols = min(3, n)`,
`rows = ceil(n / cols)`; the generic routines use
`cols = ceil(sqrt n)` (least `c` with `c·c ≥ n`) and
`rows = ceil(n / cols)` (least `r` with `r·cols ≥ n`); for `n = 7`
this gives a 3×3 grid with 2 unused panels removed, and for `n = 1` a
valid 1×1 grid with nothing removed. -/
theorem subplot_grid_rules :
    gridGRF = (2, 3) ∧ gridGRM = (2, 3) ∧ gridCOP 6 = (2, 3) ∧
    (∀ n : ℕ, n ≠ 6 → gridCOP n = (ceilDivNat n (min 3 n), min 3 n)) ∧
    (∀ n : ℕ, 0 < n →
      n ≤ (gridGeneric n).2 * (gridGeneric n).2 ∧
      ((gridGeneric n).2 - 1) * ((gridGeneric n).2 - 1) < n ∧
      n ≤ (gridGeneric n).1 * (gridGeneric n).2 ∧
      ((gridGeneric n).1 - 1) * (gridGeneric n).2 < n) ∧
    gridGeneric 7 = (3, 3) ∧ removedGeneric 7 = 2 ∧
    gridGeneric 1 = (1, 1) ∧ removedGeneric 1 = 0 := by
  have h7 : Nat.sqrt 7 = 2 := by norm_num
  have h1 : Nat.sqrt 1 = 1 := by norm_num
  refine ⟨rfl, rfl, by decide, fun n hn => by simp [gridCOP, hn],
    fun n hn => ?_,
    by simp [gridGeneric, ceilSqrt, ceilDivNat, h7],
    by simp [removedGeneric, gridGeneric, ceilSqrt, ceilDivNat, h7],
    by simp [gridGeneric, ceilSqrt, ceilDivNat, h1],
    by simp [removedGeneric, gridGeneric, ceilSqrt, ceilDivNat, h1]⟩
  have hsq := ceilSqrt_spec n hn
  have hc : 0 < ceilSqrt n := by
    rcases Nat.eq_zero_or_pos (ceilSqrt n) with h | h
    · rw [h] at hsq
      omega
    · exact h
  have hdiv := ceilDivNat_spec n (ceilSqrt n) hn hc
  simp only [gridGeneric]
  exact ⟨hsq.1, hsq.2, hdiv.1, hdiv.2⟩

/-- Witness for C5: the `plot_cops` fallback rule at 3 channels and
the generic-rule characterization at 5 channels. -/
theorem subplot_grid_rules_witness :
    gridCOP 3 = (ceilDivNat 3 (min 3 3), min 3 3) ∧
    (5 ≤ (gridGeneric 5).2 * (gridGeneric 5).2 ∧
     ((gridGeneric 5).2 - 1) * ((gridGeneric 5).2 - 1) < 5 ∧
     5 ≤ (gridGeneric 5).1 * (gridGeneric 5).2 ∧
     ((gridGeneric 5).1 - 1) * (gridGeneric 5).2 < 5) :=
  ⟨subplot_grid_rules.2.2.2.1 3 (by decide),
   subplot_grid_rules.2.2.2.2.1 5 (by decide)⟩

/-! ## Per-panel rendering theorems -/

/-- Reading panel `i` of a per-channel rendering built over
`List.range`. -/
lemma range_map_getD {α : Type} (n i : ℕ) (f : ℕ → α) (h : i < n)
    (d : α) : ((List.range n).map f).getD i d = f i := by
  rw [List.getD_eq_getElem _ _ (by simpa using h)]
  simp

/-- C6: in `plot_muscle_activations` with an EMG reference array, a
channel whose EMG row is entirely NaN renders with no reference curve
— its panel is identical to the one produced with no EMG data at all —
while a sibling channel whose row has valid data still renders its
reference curve; the primary curve of the suppressed channel is still
drawn and no panel is skipped. -/
theorem emg_all_nan_suppressed
    (activations : List (List ℚ)) (muscle_names : List String)
    (e : List (List (Option ℚ))) (i j : ℕ)
    (hi : i < muscle_names.length) (hj : j < muscle_names.length)
    (hnan : (e.getD i []).all (·.isNone) = true)
    (hvalid : (e.getD j []).all (·.isNone) = false) :
    ((plot_muscle_activations activations muscle_names
        (some e)).getD i default).emgCurve = none ∧
    (plot_muscle_activations activations muscle_names
        (some e)).getD i default =
      (plot_muscle_activations activations muscle_names none).getD i
        default ∧
    ((plot_muscle_activations activations muscle_names
        (some e)).getD j default).emgCurve = some (e.getD j []) ∧
    ((plot_muscle_activations activations muscle_names
        (some e)).getD i default).primary =
      (activations.getD i []).dropLast ∧
    (plot_muscle_activations activations muscle_names (some e)).length =
      muscle_names.length := by
  unfold plot_muscle_activations
  rw [range_map_getD _ _ _ hi, range_map_getD _ _ _ hj,
    range_map_getD _ _ _ hi]
  refine ⟨?_, ?_, ?_, rfl, by simp⟩
  · show (if (e.getD i []).all (·.isNone) = true then none
      else some (e.getD i [])) = none
    rw [if_pos hnan]
  · show MusclePanel.mk (if (e.getD i []).all (·.isNone) = true then none
      else some (e.getD i [])) _ _ _ = MusclePanel.mk none _ _ _
    rw [if_pos hnan]
  · show (if (e.getD j []).all (·.isNone) = true then none
      else some (e.getD j [])) = some (e.getD j [])
    rw [if_neg (by rw [hvalid]; simp)]

/-- Witness for C6: two channels, the first with an all-NaN EMG row,
the second with a valid sample. -/
theorem emg_all_nan_suppressed_witness :
    ((plot_muscle_activations [[1, 2], [3, 4]] ["soleus", "tibant"]
        (some [[none, none], [some 5, none]])).getD 0 default).emgCurve
      = none ∧
    (plot_muscle_activations [[1, 2], [3, 4]] ["soleus", "tibant"]
        (some [[none, none], [some 5, none]])).getD 0 default =
      (plot_muscle_activations [[1, 2], [3, 4]] ["soleus", "tibant"]
        none).getD 0 default ∧
    ((plot_muscle_activations [[1, 2], [3, 4]] ["soleus", "tibant"]
        (some [[none, none], [some 5, none]])).getD 1 default).emgCurve
      = some [some 5, none] ∧
    ((plot_muscle_activations [[1, 2], [3, 4]] ["soleus", "tibant"]
        (some [[none, none], [some 5, none]])).getD 0 default).primary
      = ([(1 : ℚ), 2] : List ℚ).dropLast ∧
    (plot_muscle_activations [[1, 2], [3, 4]] ["soleus", "tibant"]
        (some [[none, none], [some 5, none]])).length = 2 :=
  emg_all_nan_suppressed [[1, 2], [3, 4]] ["soleus", "tibant"]
    [[none, none], [some 5, none]] 0 1 (by decide) (by decide)
    (by decide) (by decide)

/-- C7: in a `plot_joint_coordinates` or `plot_joint_speeds` call
(values in `ℝ`, `np.pi` instantiated with `Real.pi`), a channel whose
name is in the declared rotational-coordinate list has both its
primary and tracked values multiplied by `180/π` and uses the angular
unit (`(deg)` resp. `(deg/s)`); any other channel is plotted unscaled
with the linear unit (`(m)` resp. `(m/s)`); in particular a rotational
coordinate channel with raw value `π/2` renders the scaled value `90`
(degrees). -/
theorem rotational_channel_scaling :
    (∀ (coordinates : List (List ℝ)) (coord_names : List String)
      (tracked : Option (List (List ℝ))) (rot : List String) (i : ℕ),
      i < coord_names.length →
      (coord_names.getD i "" ∈ rot →
        ((plot_joint_coordinates Real.pi coordinates coord_names tracked
            rot).getD i default).unit = "(deg)" ∧
        ((plot_joint_coordinates Real.pi coordinates coord_names tracked
            rot).getD i default).primary =
          ((coordinates.getD i []).dropLast).map
            (· * (180 / Real.pi)) ∧
        ((plot_joint_coordinates Real.pi coordinates coord_names tracked
            rot).getD i default).tracked =
          tracked.map (fun t => (t.getD i []).map
            (· * (180 / Real.pi)))) ∧
      (coord_names.getD i "" ∉ rot →
        ((plot_joint_coordinates Real.pi coordinates coord_names tracked
            rot).getD i default).unit = "(m)" ∧
        ((plot_joint_coordinates Real.pi coordinates coord_names tracked
            rot).getD i default).primary =
          (coordinates.getD i []).dropLast ∧
        ((plot_joint_coordinates Real.pi coordinates coord_names tracked
            rot).getD i default).tracked =
          tracked.map (fun t => t.getD i []))) ∧
    (∀ (speeds : List (List ℝ)) (coord_names : List String)
      (tracked : Option (List (List ℝ))) (rot : List String) (i : ℕ),
      i < coord_names.length →
      (coord_names.getD i "" ∈ rot →
        ((plot_joint_speeds Real.pi speeds coord_names tracked
            rot).getD i default).unit = "(deg/s)" ∧
        ((plot_joint_speeds Real.pi speeds coord_names tracked
            rot).getD i default).primary =
          ((speeds.getD i []).dropLast).map
            (· * (180 / Real.pi)) ∧
        ((plot_joint_speeds Real.pi speeds coord_names tracked
            rot).getD i default).tracked =
          tracked.map (fun t => (t.getD i []).map
            (· * (180 / Real.pi)))) ∧
      (coord_names.getD i "" ∉ rot →
        ((plot_joint_speeds Real.pi speeds coord_names tracked
            rot).getD i default).unit = "(m/s)" ∧
        ((plot_joint_speeds Real.pi speeds coord_names tracked
            rot).getD i default).primary =
          (speeds.getD i []).dropLast ∧
        ((plot_joint_speeds Real.pi speeds coord_names tracked
            rot).getD i default).tracked =
          tracked.map (fun t => t.getD i []))) ∧
    (plot_joint_coordinates Real.pi [[Real.pi / 2, 0]] ["knee_angle"]
        none ["knee_angle"]).map (fun p => p.primary) = [[(90 : ℝ)]] := by
  refine ⟨?_, ?_, ?_⟩
  · intro coordinates coord_names tracked rot i hi
    unfold plot_joint_coordinates
    rw [range_map_getD _ _ _ hi]
    dsimp only
    constructor
    · intro hmem
      have hcond : rot ≠ [] ∧ coord_names.getD i "" ∈ rot :=
        ⟨List.ne_nil_of_mem hmem, hmem⟩
      rw [if_pos hcond, if_pos hcond]
      exact ⟨rfl, rfl, rfl⟩
    · intro hmem
      have hcond : ¬(rot ≠ [] ∧ coord_names.getD i "" ∈ rot) :=
        fun h => hmem h.2
      rw [if_neg hcond, if_neg hcond]
      refine ⟨rfl, by simp, ?_⟩
      cases tracked with
      | none => rfl
      | some t => simp
  · intro speeds coord_names tracked rot i hi
    unfold plot_joint_speeds
    rw [range_map_getD _ _ _ hi]
    dsimp only
    constructor
    · intro hmem
      have hcond : rot ≠ [] ∧ coord_names.getD i "" ∈ rot :=
        ⟨List.ne_nil_of_mem hmem, hmem⟩
      rw [if_pos hcond, if_pos hcond]
      exact ⟨rfl, rfl, rfl⟩
    · intro hmem
      have hcond : ¬(rot ≠ [] ∧ coord_names.getD i "" ∈ rot) :=
        fun h => hmem h.2
      rw [if_neg hcond, if_neg hcond]
      refine ⟨rfl, by simp, ?_⟩
      cases tracked with
      | none => rfl
      | some t => simp
  · have hπ := Real.pi_ne_zero
    have hcond : (["knee_angle"] : List String) ≠ [] ∧
        (["knee_angle"] : List String).getD 0 "" ∈
          (["knee_angle"] : List String) := by simp
    have hval : Real.pi / 2 * (180 / Real.pi) = 90 := by
      field_simp
      ring
    unfold plot_joint_coordinates
    show [((([[Real.pi / 2, 0]] : List (List ℝ)).getD 0 []).dropLast).map
      (· * (if (["knee_angle"] : List String) ≠ [] ∧
        (["knee_angle"] : List String).getD 0 "" ∈
          (["knee_angle"] : List String) then (180 : ℝ) / Real.pi
        else 1))] = [[(90 : ℝ)]]
    rw [if_pos hcond]
    show [[Real.pi / 2 * ((180 : ℝ) / Real.pi)]] = [[(90 : ℝ)]]
    rw [hval]

/-- Witness for C7: concrete two-channel coordinate and speed calls
with one rotational and one translational channel. -/
theorem rotational_channel_scaling_witness :
    ((plot_joint_coordinates Real.pi [[1, 2], [3, 4]]
        ["knee_angle", "pelvis_tx"] none ["knee_angle"]).getD 0
        default).unit = "(deg)" ∧
    ((plot_joint_coordinates Real.pi [[1, 2], [3, 4]]
        ["knee_angle", "pelvis_tx"] none ["knee_angle"]).getD 1
        default).unit = "(m)" ∧
    ((plot_joint_speeds Real.pi [[1, 2], [3, 4]]
        ["knee_angle", "pelvis_tx"] none ["knee_angle"]).getD 0
        default).unit = "(deg/s)" ∧
    ((plot_joint_speeds Real.pi [[1, 2], [3, 4]]
        ["knee_angle", "pelvis_tx"] none ["knee_angle"]).getD 1
        default).unit = "(m/s)" :=
  ⟨((rotational_channel_scaling.1 [[1, 2], [3, 4]]
      ["knee_angle", "pelvis_tx"] none ["knee_angle"] 0
      (by decide)).1 (by decide)).1,
   ((rotational_channel_scaling.1 [[1, 2], [3, 4]]
      ["knee_angle", "pelvis_tx"] none ["knee_angle"] 1
      (by decide)).2 (by decide)).1,
   ((rotational_channel_scaling.2.1 [[1, 2], [3, 4]]
      ["knee_angle", "pelvis_tx"] none ["knee_angle"] 0
      (by decide)).1 (by decide)).1,
   ((rotational_channel_scaling.2.1 [[1, 2], [3, 4]]
      ["knee_angle", "pelvis_tx"] none ["knee_angle"] 1
      (by decide)).2 (by decide)).1⟩

/-! ## Orchestration theorems -/

/-- C3: when the key `GRF` or the key `GRF_labels` is absent from the
results entry, `extract_dynamics` plots nothing for the coordinates,
speeds, torques, powers and KAM categories (indeed it plots nothing at
all), whatever other keys are present. -/
theorem no_grf_no_kinematics_plots :
    ∀ (r : ResultsStore) (display : String) (dp : Bool),
    (r.GRF = none ∨ r.GRF_labels = none) →
    ∀ c ∈ (["coordinates", "speeds", "torques", "powers", "KAM"] :
      List String), c ∉ (extract_dynamics r display dp).plotted := by
  intro r display dp h c _hc
  have hcond : (r.GRF.isSome && r.GRF_labels.isSome) = false := by
    rcases h with h | h <;> simp [h]
  simp [extract_dynamics, hcond]

/-- Witness for C3: a store with every category's own keys present but
`GRF_labels` missing plots no torques. -/
theorem no_grf_no_kinematics_plots_witness :
    "torques" ∉ (extract_dynamics
      { time := [0, 1], GRF := some [[1]],
        GRM := some [[1]], GRM_labels := some ["m"],
        COP := some [[1]], COP_labels := some ["c"],
        muscle_activations := some [[1]], muscles := some ["s"],
        torques := some [[1]], coordinates := some ["knee"],
        coordinate_values := some [[1]], coordinate_speeds := some [[1]],
        powers := some [[1]], coordinates_power := some ["knee"],
        KAM := some [[1]], KAM_labels := some ["k"] } "x" true).plotted :=
  no_grf_no_kinematics_plots _ "x" true (Or.inr rfl) "torques" (by decide)

/-- C10: each ✓/✗ mark of the console presence report depends only on
the presence of that category's array key, never on its companion
labels key; a store containing `GRF` but not `GRF_labels` is reported
✓ for Ground Reaction Forces even though nothing is plotted. -/
theorem report_ignores_labels_keys :
    (∀ (r₁ r₂ : ResultsStore) (d₁ d₂ : String) (dp₁ dp₂ : Bool),
      r₁.GRF.isSome = r₂.GRF.isSome →
      r₁.GRM.isSome = r₂.GRM.isSome →
      r₁.COP.isSome = r₂.COP.isSome →
      r₁.muscle_activations.isSome = r₂.muscle_activations.isSome →
      r₁.torques.isSome = r₂.torques.isSome →
      r₁.coordinate_values.isSome = r₂.coordinate_values.isSome →
      r₁.KAM.isSome = r₂.KAM.isSome →
      r₁.MCF.isSome = r₂.MCF.isSome →
      (extract_dynamics r₁ d₁ dp₁).report =
        (extract_dynamics r₂ d₂ dp₂).report) ∧
    (∀ (r : ResultsStore) (d : String) (dp : Bool),
      r.GRF.isSome = true → r.GRF_labels = none →
      ("Ground Reaction Forces", true) ∈
        (extract_dynamics r d dp).report ∧
      (extract_dynamics r d dp).plotted = []) := by
  constructor
  · intro r₁ r₂ d₁ d₂ dp₁ dp₂ h1 h2 h3 h4 h5 h6 h7 h8
    simp only [extract_dynamics, h1, h2, h3, h4, h5, h6, h7, h8]
  · intro r d dp hgrf hlab
    constructor
    · simp [extract_dynamics, hgrf]
    · simp [extract_dynamics, hlab]

/-- Witness for C10: a store holding only the `GRF` array. -/
theorem report_ignores_labels_keys_witness :
    ("Ground Reaction Forces", true) ∈
      (extract_dynamics { time := [], GRF := some [[1]] } "" true).report ∧
    (extract_dynamics { time := [], GRF := some [[1]] } "" true).plotted
      = [] :=
  report_ignores_labels_keys.2 { time := [], GRF := some [[1]] } "" true
    rfl rfl

/-! ## Display (show) semantics -/

/-- Everything `shownOf` returns comes from the input list. -/
lemma shownOf_subset (d : String) (dp : Bool) (l : List String) :
    ∀ c ∈ shownOf d dp l, c ∈ l := by
  induction l with
  | nil => simp [shownOf]
  | cons a rest ih =>
    intro c hc
    unfold shownOf at hc
    by_cases hany : (a :: rest).any (showSucceeds d dp) = true
    · rw [if_pos hany] at hc
      rcases List.mem_cons.mp hc with h | h
      · simp [h]
      · exact List.mem_cons_of_mem _ (ih c h)
    · rw [if_neg hany] at hc
      exact List.mem_cons_of_mem _ (ih c hc)

/-- With `DISPLAY` empty every backend is `Agg` and no show attempt
succeeds, so nothing is displayed. -/
lemma shownOf_no_display (dp : Bool) (l : List String) :
    shownOf "" dp l = [] := by
  have hfun : ∀ c, showSucceeds "" dp c = false := by
    intro c
    unfold showSucceeds
    split_ifs <;> simp
  induction l with
  | nil => rfl
  | cons a rest ih =>
    unfold shownOf
    have hany : ((a :: rest).any (showSucceeds "" dp)) = false := by
      rw [List.any_eq_false]
      intro x _
      simp [hfun]
    rw [hany]
    simp [ih]

/-- A category whose own show attempt succeeds is displayed. -/
lemma mem_shownOf_self (d : String) (dp : Bool) {l : List String}
    {c : String} (hc : c ∈ l) (hs : showSucceeds d dp c = true) :
    c ∈ shownOf d dp l := by
  induction l with
  | nil => cases hc
  | cons a rest ih =>
    unfold shownOf
    rcases List.mem_cons.mp hc with h | h
    · subst h
      have hany : (c :: rest).any (showSucceeds d dp) = true :=
        List.any_eq_true.mpr ⟨c, List.mem_cons_self _ _, hs⟩
      rw [if_pos hany]
      exact List.mem_cons_self _ _
    · have hrest : rest.any (showSucceeds d dp) = true :=
        List.any_eq_true.mpr ⟨c, h, hs⟩
      have hany : (a :: rest).any (showSucceeds d dp) = true := by
        simp [List.any_cons, hrest]
      rw [if_pos hany]
      exact List.mem_cons_of_mem _ (ih h)

/-- The head of the plot order is displayed iff some show attempt in
the whole run succeeds. -/
lemma head_mem_shownOf_iff (d : String) (dp : Bool) {c : String}
    {rest : List String} (hne : c ∉ rest) :
    c ∈ shownOf d dp (c :: rest) ↔
      (c :: rest).any (showSucceeds d dp) = true := by
  unfold shownOf
  by_cases hany : (c :: rest).any (showSucceeds d dp) = true
  · rw [if_pos hany]
    simp [hany]
  · rw [if_neg hany]
    constructor
    · intro hmem
      exact absurd (shownOf_subset d dp rest c hmem) hne
    · intro h
      exact absurd h hany

/-- Membership in a conditional singleton. -/
lemma mem_ite_nil {P : Prop} [Decidable P] {x c : String}
    (h : c ∈ (if P then [x] else ([] : List String))) : c = x := by
  split at h
  · simpa using h
  · simp at h

/-- No category of the guarded tail is the GRF category. -/
lemma plottedTail_ne_grf (r : ResultsStore) :
    ∀ c ∈ plottedTail r, c ≠ "GRF" := by
  intro c hc
  unfold plottedTail at hc
  simp only [List.mem_append] at hc
  rcases hc with ((((((h | h) | h) | h) | h) | h) | h) | h <;>
    (rw [mem_ite_nil h]; decide)

/-- Over a list of non-GRF categories, some bare show succeeds iff a
display exists and the list is nonempty. -/
lemma any_showSucceeds_no_grf (d : String) (dp : Bool)
    (l : List String) (hl : ∀ c ∈ l, c ≠ "GRF") :
    (l.any (showSucceeds d dp) = true) ↔ (d ≠ "" ∧ l ≠ []) := by
  induction l with
  | nil => simp
  | cons a rest ih =>
    have ha : showSucceeds d dp a = decide (d ≠ "") := by
      unfold showSucceeds
      rw [if_neg (hl a (List.mem_cons_self _ _))]
    rw [List.any_cons, Bool.or_eq_true, ha,
      ih fun c hc => hl c (List.mem_cons_of_mem _ hc)]
    simp only [decide_eq_true_eq]
    constructor
    · rintro (h | h)
      · exact ⟨h, by simp⟩
      · exact ⟨h.1, by simp⟩
    · rintro ⟨h, -⟩
      exact Or.inl h

/-- Counterexample to C2 as stated: with a display available
(`DISPLAY = ":0"`) and `display_plot = False`, figures are still
shown — the flag reaches only `plot_grfs`, the other routines call a
bare `plt.show()`, and since `plt.show()` displays every open figure
and no routine closes its figure, even the GRF figure skipped by
`plot_grfs` is displayed by the next routine's bare show. -/
theorem display_flag_not_respected :
    (extract_dynamics
      { time := [0, 1], GRF := some [[1, 2]], GRF_labels := some ["g"],
        muscle_activations := some [[1, 2]], muscles := some ["s"] }
      ":0" false).shown = ["GRF", "muscle_activations"] := by decide

/-- C2 (amended): with no display surface (`DISPLAY` empty) no
category's figure is ever shown; with a display, `display_plot` fails
to suppress display — every plotted non-GRF category is shown
regardless of the flag, and even the GRF figure is shown unless the
flag is false *and* GRF is the only plotted category, because
`plot_grfs` leaves its figure open and any later category's bare
`plt.show()` displays it. -/
theorem display_governance_amended :
    ∀ (r : ResultsStore) (display : String) (dp : Bool),
    (display = "" → (extract_dynamics r display dp).shown = []) ∧
    (∀ c : String, c ≠ "GRF" →
      (c ∈ (extract_dynamics r display dp).shown ↔
        (c ∈ (extract_dynamics r display dp).plotted ∧
          display ≠ ""))) ∧
    ("GRF" ∈ (extract_dynamics r display dp).shown ↔
      ("GRF" ∈ (extract_dynamics r display dp).plotted ∧
        display ≠ "" ∧
        (dp = true ∨
          ∃ c ∈ (extract_dynamics r display dp).plotted,
            c ≠ "GRF"))) := by
  intro r display dp
  have hshown : (extract_dynamics r display dp).shown =
      shownOf display dp (extract_dynamics r display dp).plotted := rfl
  refine ⟨fun h => ?_, fun c hc => ?_, ?_⟩
  · subst h
    rw [hshown]
    exact shownOf_no_display dp _
  · rw [hshown]
    constructor
    · intro hmem
      refine ⟨shownOf_subset _ _ _ c hmem, ?_⟩
      intro hd
      subst hd
      rw [shownOf_no_display] at hmem
      simp at hmem
    · rintro ⟨hmem, hd⟩
      apply mem_shownOf_self _ _ hmem
      unfold showSucceeds
      rw [if_neg hc]
      simpa using hd
  · by_cases hcond : (r.GRF.isSome && r.GRF_labels.isSome) = true
    · have hplot : (extract_dynamics r display dp).plotted =
          "GRF" :: plottedTail r := by
        simp only [extract_dynamics]
        rw [if_pos hcond]
      have hne : "GRF" ∉ plottedTail r := fun h =>
        plottedTail_ne_grf r _ h rfl
      have hGRF : showSucceeds display dp "GRF" =
          (decide (display ≠ "") && dp) := by
        unfold showSucceeds
        rw [if_pos rfl]
      have hex : (∃ c ∈ ("GRF" :: plottedTail r), c ≠ "GRF") ↔
          plottedTail r ≠ [] := by
        constructor
        · rintro ⟨c, hcm, hcne⟩
          rcases List.mem_cons.mp hcm with h | h
          · exact absurd h hcne
          · intro hnil
            rw [hnil] at h
            simp at h
        · intro hnil
          obtain ⟨a, ha⟩ := List.exists_mem_of_ne_nil _ hnil
          exact ⟨a, List.mem_cons_of_mem _ ha,
            plottedTail_ne_grf r a ha⟩
      rw [hshown, hplot,
        head_mem_shownOf_iff display dp hne, List.any_cons,
        Bool.or_eq_true, hGRF,
        any_showSucceeds_no_grf display dp _ (plottedTail_ne_grf r)]
      have hmem0 : ("GRF" : String) ∈ "GRF" :: plottedTail r :=
        List.mem_cons_self _ _
      simp only [Bool.and_eq_true, decide_eq_true_eq, hex, hmem0,
        true_and]
      tauto
    · have hplot : (extract_dynamics r display dp).plotted = [] := by
        simp only [extract_dynamics]
        rw [if_neg hcond]
      rw [hshown, hplot]
      simp [shownOf]

/-- Witness for C2 (amended): headless environment shows nothing even
with the flag set. -/
theorem display_governance_amended_witness :
    (extract_dynamics
      { time := [0, 1], GRF := some [[1, 2]], GRF_labels := some ["g"],
        muscle_activations := some [[1, 2]], muscles := some ["s"] }
      "" true).shown = [] :=
  (display_governance_amended _ "" true).1 rfl

/-- C8: for a store whose time row has length `T+1` and whose
`muscle_activations` rows all have length `T+1` (with a `muscles` list
of matching row count), `extract_dynamics` derives the working time
vector by dropping the final sample (length `T`), every rendered
activation curve uses only the first `T` activation samples, and every
activation panel's y-axis is fixed to `[0, 1]`. -/
theorem muscle_time_alignment :
    ∀ (r : ResultsStore) (display : String) (dp : Bool) (T : ℕ)
      (acts : Mat) (names : List String),
    r.time.length = T + 1 →
    r.muscle_activations = some acts →
    r.muscles = some names →
    (∀ row ∈ acts, row.length = T + 1) →
    acts.length = names.length →
    (extract_dynamics r display dp).time = r.time.dropLast ∧
    (extract_dynamics r display dp).time.length = T ∧
    (∀ ps, (extract_dynamics r display dp).musclePanels = some ps →
      ps.length = names.length ∧
      ∀ i, i < names.length →
        (ps.getD i default).primary = (acts.getD i []).dropLast ∧
        (ps.getD i default).primary.length = T ∧
        (ps.getD i default).yLim = (0, 1)) := by
  intro r display dp T acts names htime hacts hnames hrows hlen
  refine ⟨rfl, ?_, fun ps hps => ?_⟩
  · show (r.time.dropLast).length = T
    simp [htime]
  · have hps' : ps = plot_muscle_activations acts names
        r.muscle_activations_emg := by
      by_cases hcond : (r.GRF.isSome && r.GRF_labels.isSome &&
        (r.muscle_activations.isSome && r.muscles.isSome)) = true
      · have : (extract_dynamics r display dp).musclePanels =
            some (plot_muscle_activations
              (r.muscle_activations.getD []) (r.muscles.getD [])
              r.muscle_activations_emg) := by
          simp only [extract_dynamics]
          rw [if_pos hcond]
        rw [this] at hps
        have := Option.some.inj hps
        rw [← this, hacts, hnames]
        rfl
      · have : (extract_dynamics r display dp).musclePanels = none := by
          simp only [extract_dynamics]
          rw [if_neg hcond]
        rw [this] at hps
        exact absurd hps (by simp)
    subst hps'
    constructor
    · simp [plot_muscle_activations]
    · intro i hi
      unfold plot_muscle_activations
      rw [range_map_getD _ _ _ hi]
      refine ⟨rfl, ?_, rfl⟩
      have hmem : acts.getD i [] ∈ acts := by
        rw [List.getD_eq_getElem _ _ (by omega)]
        exact List.getElem_mem _
      have hlenrow : (acts.getD i []).length = T + 1 := hrows _ hmem
      rw [List.length_dropLast, hlenrow]
      omega

/-- Witness for C8: a one-muscle store with three time samples. -/
theorem muscle_time_alignment_witness :
    (extract_dynamics
      { time := [0, 1, 2], GRF := some [[1]], GRF_labels := some ["g"],
        muscle_activations := some [[5, 6, 7]], muscles := some ["sol"] }
      "" false).time = ([0, 1, 2] : List ℚ).dropLast ∧
    ((plot_muscle_activations [[5, 6, 7]] ["sol"] none).getD 0
      default).yLim = (0, 1) :=
  ⟨(muscle_time_alignment
      { time := [0, 1, 2], GRF := some [[1]], GRF_labels := some ["g"],
        muscle_activations := some [[5, 6, 7]], muscles := some ["sol"] }
      "" false 2 [[5, 6, 7]] ["sol"] rfl rfl rfl (by decide) rfl).1,
   (((muscle_time_alignment
      { time := [0, 1, 2], GRF := some [[1]], GRF_labels := some ["g"],
        muscle_activations := some [[5, 6, 7]], muscles := some ["sol"] }
      "" false 2 [[5, 6, 7]] ["sol"] rfl rfl rfl (by decide) rfl).2.2 _
      rfl).2 0 (by decide)).2.2⟩
